import Mathlib

/-!
Verification of the AiDot switch platform (custom_components/aidot/switch.py):
the device-type classifier, the listener-driven add/remove reconciliation pass,
and the entity adapter (state mirroring, optimistic turn-on/turn-off, and
manufacturer/model derivation).  Python strings are modelled as `String` or
`List Char`, Python sets as `Finset String`, the external mappings
(`device_types`, `device_coordinators`) as functions and finite sets, and the
host entity registry as a finite partial map from lookup keys to entity ids.
-/

namespace Aidot

/-- The integration domain constant imported from `.const`.
Modelled from the spec: the `const` module is not part of the sources; the
spec only uses it as the opaque domain identifier of the integration, so any
fixed string is faithful. -/
def DOMAIN : String := "aidot"

/-- Python `str.lower()` on the character list of a string (per-character
lowering, which agrees with Python on the ASCII type strings involved). -/
def lowerStr (s : String) : List Char := s.toList.map Char.toLower

/-- Embedding of `_is_switch_device` from switch.py.  Looks up the type of
`device_id` in `device_types` defaulting to the empty string, then checks
`"plug" in t.lower()`, `"switch" in t.lower()`, and excludes
`"light" in t.lower() or "bulb" in t.lower()`; Python substring membership is
list infix. -/
def isSwitchDevice (device_types : String → Option String) (device_id : String) : Bool :=
  let device_type := (device_types device_id).getD ""
  let is_plug := decide ("plug".toList <:+: lowerStr device_type)
  let is_switch := decide ("switch".toList <:+: lowerStr device_type)
  let is_light := decide ("light".toList <:+: lowerStr device_type)
    || decide ("bulb".toList <:+: lowerStr device_type)
  (is_plug || is_switch) && !is_light

/-- Case-insensitive substring containment, as the spec words it: the lowered
needle occurs inside the lowered haystack. -/
def ciContains (hay needle : String) : Prop := lowerStr needle <:+: lowerStr hay

instance (hay needle : String) : Decidable (ciContains hay needle) := by
  unfold ciContains; infer_instance

/-- Registry lookup keys: (platform, domain, unique id), as passed to
`entity_registry.async_get_entity_id("switch", DOMAIN, device_id)`. -/
def Key : Type := String × String × String

instance : DecidableEq Key := by unfold Key; infer_instance

/-- The host entity registry, modelled as a partial map from lookup keys to
entity ids.  The registry contract (spec section 6 and glossary) is a
persistent mapping of domain+platform+unique-id to living entity, with entity
ids naming a unique entry, so `async_remove` on the entity id obtained by
looking up a key deletes exactly the entry at that key. -/
def Reg : Type := Key → Option String

/-- The lookup key used by the removal branch for a device id. -/
def switchKey (d : String) : Key := ("switch", DOMAIN, d)

/-- The removal loop of `add_entities`: for each removed device id, look up
`("switch", DOMAIN, device_id)` in the entity registry; when an entity id is
found (`if entity := ...:`), remove it and record the issued removal by its
lookup key; when none is found, do nothing for that device.  Returns the
final registry and the list of removal calls issued. -/
def removeLoop (reg : Reg) : List String → Reg × List Key
  | [] => (reg, [])
  | d :: rest =>
    match reg (switchKey d) with
    | some _ =>
      let reg2 : Reg := fun k => if k = switchKey d then none else reg k
      let r := removeLoop reg2 rest
      (r.1, switchKey d :: r.2)
    | none => removeLoop reg rest

/-- Observable outcome of one reconciliation pass: the device ids for which an
`AidotSwitch` adapter was instantiated and handed to `async_add_entities`, the
registry removal calls issued (by lookup key), the updated tracked set
`lists_added`, and the updated entity registry. -/
structure PassResult where
  instantiated : Finset String
  removalKeys : List Key
  lists_added : Finset String
  registry : Reg

/-- Embedding of the closure `add_entities` from `async_setup_entry`.
`new_lists` is the set of device ids of `coordinator.device_coordinators`
passing `_is_switch_device`.  If `new_lists - lists_added` is nonempty
(Python set truthiness), an `AidotSwitch` is instantiated for every id in
`new_lists` (the generator ranges over `new_lists`, not the difference) and
`lists_added |= new_lists`; otherwise, if `lists_added - new_lists` is
nonempty, each removed id has its registry entry looked up and removed when
present, and `lists_added = lists_added - removed_device_ids`; otherwise
nothing happens. -/
def add_entities (device_types : String → Option String)
    (device_coordinators : Finset String) (lists_added : Finset String)
    (reg : Reg) : PassResult :=
  let new_lists := device_coordinators.filter fun d => isSwitchDevice device_types d = true
  if new_lists \ lists_added ≠ ∅ then
    { instantiated := new_lists
      removalKeys := []
      lists_added := lists_added ∪ new_lists
      registry := reg }
  else if lists_added \ new_lists ≠ ∅ then
    let removed_device_ids := lists_added \ new_lists
    let r := removeLoop reg (removed_device_ids.sort (· ≤ ·))
    { instantiated := ∅
      removalKeys := r.2
      lists_added := lists_added \ removed_device_ids
      registry := r.1 }
  else
    { instantiated := ∅
      removalKeys := []
      lists_added := lists_added
      registry := reg }

/-- Coordinator data as consumed by the adapter: the `online` and `on`
fields of `self.coordinator.data`. -/
structure CoordData where
  online : Bool
  on_flag : Bool
deriving DecidableEq

/-- The mutable entity state of an `AidotSwitch` touched by updates: the
availability flag, the on flag, and the identity attributes fixed at
construction (stand-ins for `_attr_unique_id` and `_attr_device_info`). -/
structure EntityState where
  unique_id : String
  device_name : String
  available : Bool
  is_on : Bool
deriving DecidableEq

/-- Embedding of `AidotSwitch._update_status`: sets `_attr_available` to
`coordinator.data.online` and `_attr_is_on` to `coordinator.data.on` (the
debug log line has no state effect). -/
def update_status (data : CoordData) (st : EntityState) : EntityState :=
  { st with available := data.online, is_on := data.on_flag }

/-- Embedding of `AidotSwitch._handle_coordinator_update` (the polling
coordinator path): calls `_update_status`; the `super()` call only writes the
resulting state out to the host and changes no field. -/
def handle_coordinator_update (data : CoordData) (st : EntityState) : EntityState :=
  update_status data st

/-- Embedding of `AidotSwitch._device_status_callback` (the push path): calls
`_update_status` and then `async_write_ha_state`, which changes no field. -/
def device_status_callback (data : CoordData) (st : EntityState) : EntityState :=
  update_status data st

/-- The two mutable flags written by the turn-on/turn-off commands: the
coordinator data `on` field and the entity `_attr_is_on` field. -/
structure TurnState where
  data_on : Bool
  attr_is_on : Bool
deriving DecidableEq

/-- Embedding of `AidotSwitch.async_turn_on`.  The device-client command
outcome is passed in as `client`: the method first assigns
`self.coordinator.data.on = True` and `self._attr_is_on = True`, then awaits
`async_turn_on()` on the client; there is no handler around the await, so the
assigned state and the client outcome (success or propagated error) are both
returned unchanged. -/
def async_turn_on (st : TurnState) (client : Except String Unit) :
    TurnState × Except String Unit :=
  let st1 : TurnState := { st with data_on := true }
  let st2 : TurnState := { st1 with attr_is_on := true }
  (st2, client)

/-- Embedding of `AidotSwitch.async_turn_off`, symmetric to `async_turn_on`
with `False` assignments. -/
def async_turn_off (st : TurnState) (client : Except String Unit) :
    TurnState × Except String Unit :=
  let st1 : TurnState := { st with data_on := false }
  let st2 : TurnState := { st1 with attr_is_on := false }
  (st2, client)

/-- Observable events of a turn-on/turn-off method body, in program order. -/
inductive Ev where
  | set_data_on (b : Bool)
  | set_attr_is_on (b : Bool)
  | await_client_turn_on
  | await_client_turn_off
deriving DecidableEq

/-- The statement sequence of `async_turn_on` as an event trace:
`self.coordinator.data.on = True`, then `self._attr_is_on = True`, then
`await self.coordinator.device_client.async_turn_on()`. -/
def async_turn_on_trace : List Ev :=
  [Ev.set_data_on true, Ev.set_attr_is_on true, Ev.await_client_turn_on]

/-- The statement sequence of `async_turn_off` as an event trace. -/
def async_turn_off_trace : List Ev :=
  [Ev.set_data_on false, Ev.set_attr_is_on false, Ev.await_client_turn_off]

/-- Embedding of Python `model_id.split(".")` on character lists: split into
the maximal dot-free segments. -/
def splitOnDot : List Char → List (List Char)
  | [] => [[]]
  | c :: rest =>
    if c = '.' then [] :: splitOnDot rest
    else
      match splitOnDot rest with
      | [] => [[c]]
      | h :: t => (c :: h) :: t

/-- Embedding of `manufacturer = model_id.split(".")[0]` from
`AidotSwitch.__init__`. -/
def manufacturer (model_id : List Char) : List Char :=
  (splitOnDot model_id).headD []

/-- Embedding of `model = model_id[len(manufacturer) + 1 :]` from
`AidotSwitch.__init__` (a Python slice whose start may exceed the length,
yielding the empty string). -/
def model (model_id : List Char) : List Char :=
  model_id.drop ((manufacturer model_id).length + 1)

lemma lower_plug : lowerStr "plug" = "plug".toList := by decide

lemma lower_switch : lowerStr "switch" = "switch".toList := by decide

lemma lower_light : lowerStr "light" = "light".toList := by decide

lemma lower_bulb : lowerStr "bulb" = "bulb".toList := by decide

/-- C3: the classifier returns true exactly when the device type string
(defaulting to the empty string when the id is absent from `device_types`)
contains "plug" or "switch" case-insensitively and does not contain "light"
or "bulb" case-insensitively; an empty or missing type classifies as
non-switch. -/
theorem classifier_rule (device_types : String → Option String) (device_id : String) :
    (isSwitchDevice device_types device_id = true ↔
      ((ciContains ((device_types device_id).getD "") "plug" ∨
        ciContains ((device_types device_id).getD "") "switch") ∧
       ¬(ciContains ((device_types device_id).getD "") "light" ∨
         ciContains ((device_types device_id).getD "") "bulb"))) ∧
    ((device_types device_id).getD "" = "" →
      isSwitchDevice device_types device_id = false) := by
  constructor
  · simp only [isSwitchDevice, ciContains, lower_plug, lower_switch, lower_light, lower_bulb]
    simp only [Bool.and_eq_true, Bool.or_eq_true, Bool.not_eq_true', Bool.or_eq_false_iff,
      decide_eq_true_eq, decide_eq_false_iff_not, not_or]
  · intro h
    simp only [isSwitchDevice, h]
    decide

theorem classifier_rule_witness :
    isSwitchDevice (fun _ => none) "dev1" = false :=
  (classifier_rule (fun _ => none) "dev1").2 rfl

lemma splitOnDot_ne_nil (s : List Char) : splitOnDot s ≠ [] := by
  induction s with
  | nil => simp [splitOnDot]
  | cons c rest ih =>
    unfold splitOnDot
    split
    · simp
    · cases h : splitOnDot rest <;> simp

lemma manufacturer_dot (rest : List Char) :
    manufacturer ('.' :: rest) = [] := by
  simp [manufacturer, splitOnDot]

lemma splitOnDot_cons (c : Char) (rest : List Char) :
    splitOnDot (c :: rest) =
      if c = '.' then [] :: splitOnDot rest
      else
        match splitOnDot rest with
        | [] => [[c]]
        | h :: t => (c :: h) :: t := rfl

lemma manufacturer_cons (c : Char) (rest : List Char) (h : ¬c = '.') :
    manufacturer (c :: rest) = c :: manufacturer rest := by
  cases e : splitOnDot rest with
  | nil => exact absurd e (splitOnDot_ne_nil rest)
  | cons hd tl => simp [manufacturer, splitOnDot_cons, if_neg h, e]

lemma model_dot (rest : List Char) : model ('.' :: rest) = rest := by
  simp [model, manufacturer_dot]

lemma model_cons (c : Char) (rest : List Char) (h : ¬c = '.') :
    model (c :: rest) = model rest := by
  simp [model, manufacturer_cons c rest h]

/-- C9: the adapter derives the manufacturer as the part of `model_id` before
the first dot and the model as the remainder after it: when a dot occurs,
`manufacturer ++ "." ++ model` reconstructs the identifier; when no dot
occurs, the manufacturer is the whole identifier and the model is empty. -/
theorem manufacturer_model_split (model_id : List Char) :
    ('.' ∈ model_id →
      manufacturer model_id ++ '.' :: model model_id = model_id) ∧
    ('.' ∉ model_id →
      manufacturer model_id = model_id ∧ model model_id = []) := by
  induction model_id with
  | nil =>
    refine ⟨fun h => absurd h (List.not_mem_nil '.'), fun _ => ⟨rfl, rfl⟩⟩
  | cons c rest ih =>
    by_cases hc : c = '.'
    · subst hc
      refine ⟨fun _ => ?_, fun h => absurd (List.mem_cons_self '.' rest) h⟩
      rw [manufacturer_dot, model_dot]
      rfl
    · constructor
      · intro h
        have hr : '.' ∈ rest := by
          rcases List.mem_cons.mp h with h1 | h1
          · exact absurd h1.symm hc
          · exact h1
        rw [manufacturer_cons c rest hc, model_cons c rest hc, List.cons_append, ih.1 hr]
      · intro h
        have hr : '.' ∉ rest := fun m => h (List.mem_cons_of_mem c m)
        obtain ⟨h1, h2⟩ := ih.2 hr
        rw [manufacturer_cons c rest hc, model_cons c rest hc, h1, h2]
        exact ⟨rfl, rfl⟩

theorem manufacturer_model_split_witness :
    (manufacturer "acme.v1".toList ++ '.' :: model "acme.v1".toList
      = "acme.v1".toList) ∧
    (manufacturer "acme".toList = "acme".toList ∧ model "acme".toList = []) :=
  ⟨(manufacturer_model_split "acme.v1".toList).1 (by decide),
   (manufacturer_model_split "acme".toList).2 (by decide)⟩

/-- C7: both update paths (coordinator update and push callback) compute the
same entity state, namely the one with availability copied from
`data.online` and on-state copied from `data.on`, the identity fields left
untouched. -/
theorem update_paths_mirror (data : CoordData) (st : EntityState) :
    handle_coordinator_update data st = device_status_callback data st ∧
    (update_status data st).available = data.online ∧
    (update_status data st).is_on = data.on_flag ∧
    (update_status data st).unique_id = st.unique_id ∧
    (update_status data st).device_name = st.device_name :=
  ⟨rfl, rfl, rfl, rfl, rfl⟩

/-- C8: when the awaited device-client command errors, the optimistically
assigned values persist (no rollback) and the error is returned unchanged
(propagates uncaught). -/
theorem turn_command_error_no_rollback (st : TurnState) (e : String) :
    (async_turn_on st (Except.error e)).1.data_on = true ∧
    (async_turn_on st (Except.error e)).1.attr_is_on = true ∧
    (async_turn_on st (Except.error e)).2 = Except.error e ∧
    (async_turn_off st (Except.error e)).1.data_on = false ∧
    (async_turn_off st (Except.error e)).1.attr_is_on = false ∧
    (async_turn_off st (Except.error e)).2 = Except.error e :=
  ⟨rfl, rfl, rfl, rfl, rfl, rfl⟩

lemma removeLoop_calls_shape (k : Key) : ∀ (l : List String) (reg : Reg),
    k ∈ (removeLoop reg l).2 → ∃ d, d ∈ l ∧ k = switchKey d := by
  intro l
  induction l with
  | nil => intro reg hk; simp [removeLoop] at hk
  | cons d rest ih =>
    intro reg hk
    cases e : reg (switchKey d) with
    | some v =>
      simp only [removeLoop, e] at hk
      rcases List.mem_cons.mp hk with h | h
      · exact ⟨d, List.mem_cons_self d rest, h⟩
      · obtain ⟨x, hx, hkx⟩ := ih _ h
        exact ⟨x, List.mem_cons_of_mem d hx, hkx⟩
    | none =>
      simp only [removeLoop, e] at hk
      obtain ⟨x, hx, hkx⟩ := ih _ hk
      exact ⟨x, List.mem_cons_of_mem d hx, hkx⟩

lemma removeLoop_frame (k : Key) : ∀ (l : List String) (reg : Reg),
    (∀ d ∈ l, k ≠ switchKey d) → (removeLoop reg l).1 k = reg k := by
  intro l
  induction l with
  | nil => intro reg _; rfl
  | cons d rest ih =>
    intro reg h
    have hd : k ≠ switchKey d := h d (List.mem_cons_self d rest)
    have hrest : ∀ x ∈ rest, k ≠ switchKey x :=
      fun x hx => h x (List.mem_cons_of_mem d hx)
    cases e : reg (switchKey d) with
    | some v =>
      simp only [removeLoop, e]
      rw [ih _ hrest]
      simp [if_neg hd]
    | none =>
      simp only [removeLoop, e]
      exact ih _ hrest

lemma removeLoop_none_no_call (k : Key) : ∀ (l : List String) (reg : Reg),
    reg k = none → k ∉ (removeLoop reg l).2 := by
  intro l
  induction l with
  | nil => intro reg _; simp [removeLoop]
  | cons d rest ih =>
    intro reg hnone
    cases e : reg (switchKey d) with
    | some v =>
      have hne : k ≠ switchKey d := fun hk => by rw [hk, e] at hnone; exact Option.noConfusion hnone
      simp only [removeLoop, e, List.mem_cons, not_or]
      refine ⟨hne, ih _ ?_⟩
      by_cases hk : k = switchKey d
      · simp [hk]
      · simp [hk, hnone]
    | none =>
      simp only [removeLoop, e]
      exact ih _ hnone

/-- C4 (idempotence): when the qualifying set equals the tracked set, a
reconciliation pass instantiates no adapter, issues no registry removal, and
leaves the tracked set and the registry unchanged. -/
theorem pass_noop_when_unchanged (device_types : String → Option String)
    (devices tracked : Finset String) (reg : Reg)
    (h : devices.filter (fun d => isSwitchDevice device_types d = true) = tracked) :
    (add_entities device_types devices tracked reg).instantiated = ∅ ∧
    (add_entities device_types devices tracked reg).removalKeys = [] ∧
    (add_entities device_types devices tracked reg).lists_added = tracked ∧
    (add_entities device_types devices tracked reg).registry = reg := by
  simp [add_entities, h]

/-- A device catalog in which every device types as a plug. -/
def plugTypes : String → Option String := fun _ => some "plug"

theorem pass_noop_when_unchanged_witness :
    (add_entities plugTypes {"a"} {"a"} (fun _ => none)).instantiated = ∅ ∧
    (add_entities plugTypes {"a"} {"a"} (fun _ => none)).removalKeys = [] ∧
    (add_entities plugTypes {"a"} {"a"} (fun _ => none)).lists_added = {"a"} ∧
    (add_entities plugTypes {"a"} {"a"} (fun _ => none)).registry = fun _ => none :=
  pass_noop_when_unchanged plugTypes {"a"} {"a"} (fun _ => none) (by decide)

/-- C2 (counterexample): with every device typed as a plug, devices a and b
present, and a already tracked, the pass instantiates an adapter for a even
though a is already in the tracked set, contradicting the claim that none is
instantiated for an already-tracked device. -/
theorem pass_instantiated_counterexample :
    "a" ∈ (add_entities plugTypes {"a", "b"} {"a"} (fun _ => none)).instantiated ∧
    "a" ∈ ({"a"} : Finset String) := by
  decide

/-- C2 (amended): when the qualifying set has gained members relative to the
tracked set, one adapter is instantiated per device of the entire qualifying
set (the generator ranges over `new_lists`), so already-tracked qualifying
devices get an adapter as well. -/
theorem pass_instantiates_qualifying (device_types : String → Option String)
    (devices tracked : Finset String) (reg : Reg)
    (h : devices.filter (fun d => isSwitchDevice device_types d = true) \ tracked ≠ ∅) :
    (add_entities device_types devices tracked reg).instantiated =
      devices.filter (fun d => isSwitchDevice device_types d = true) := by
  simp only [add_entities]
  split_ifs
  rfl

theorem pass_instantiates_qualifying_witness :
    (add_entities plugTypes {"a", "b"} {"a"} (fun _ => none)).instantiated =
      ({"a", "b"} : Finset String).filter
        (fun d => isSwitchDevice plugTypes d = true) :=
  pass_instantiates_qualifying plugTypes {"a", "b"} {"a"} (fun _ => none) (by decide)

/-- A device catalog in which only device b types as a plug and every other
device as a light. -/
def mixedTypes : String → Option String :=
  fun d => if d = "b" then some "plug" else some "light"

/-- C1 (counterexample): with a tracked and exactly b qualifying, the pass
needs both an addition (of b) and a removal (of a); the `elif` runs only the
addition branch and `lists_added |= new_lists` keeps a, so the tracked set
after the pass differs from the qualifying set. -/
theorem pass_tracked_counterexample :
    ({"a", "b"} : Finset String).filter
        (fun d => isSwitchDevice mixedTypes d = true) = {"b"} ∧
    (add_entities mixedTypes {"a", "b"} {"a"} (fun _ => none)).lists_added ≠
      ({"b"} : Finset String) := by
  decide

/-- C1 (amended): after a reconciliation pass the tracked set equals the
qualifying set, provided the pass did not need both additions and removals,
that is, one of the two set differences was empty; when both differences are
nonempty only the addition branch runs and stale ids stay tracked. -/
theorem pass_tracked_eq_qualifying (device_types : String → Option String)
    (devices tracked : Finset String) (reg : Reg)
    (h : tracked \ devices.filter (fun d => isSwitchDevice device_types d = true) = ∅ ∨
      devices.filter (fun d => isSwitchDevice device_types d = true) \ tracked = ∅) :
    (add_entities device_types devices tracked reg).lists_added =
      devices.filter (fun d => isSwitchDevice device_types d = true) := by
  simp only [add_entities]
  split_ifs with h1 h2
  · show tracked ∪ _ = _
    rcases h with h | h
    · exact Finset.union_eq_right.mpr (Finset.sdiff_eq_empty_iff_subset.mp h)
    · exact absurd h h1
  · show tracked \ (tracked \ _) = _
    rw [Finset.sdiff_sdiff_self_left]
    exact Finset.inter_eq_right.mpr
      (Finset.sdiff_eq_empty_iff_subset.mp (not_not.mp h1))
  · show tracked = _
    exact Finset.Subset.antisymm
      (Finset.sdiff_eq_empty_iff_subset.mp (not_not.mp h2))
      (Finset.sdiff_eq_empty_iff_subset.mp (not_not.mp h1))

theorem pass_tracked_eq_qualifying_witness :
    (add_entities plugTypes {"a"} ∅ (fun _ => none)).lists_added =
      ({"a"} : Finset String).filter (fun d => isSwitchDevice plugTypes d = true) :=
  pass_tracked_eq_qualifying plugTypes {"a"} ∅ (fun _ => none) (Or.inl (by decide))

/-- C5: in a pass that takes the removal branch, every issued registry
removal has lookup key `("switch", DOMAIN, d)` for some removed device id d,
and the registry is unchanged at every key that is not such a key. -/
theorem pass_removals_frame (device_types : String → Option String)
    (devices tracked : Finset String) (reg : Reg)
    (h1 : devices.filter (fun d => isSwitchDevice device_types d = true) \ tracked = ∅)
    (h2 : tracked \ devices.filter (fun d => isSwitchDevice device_types d = true) ≠ ∅) :
    (∀ k ∈ (add_entities device_types devices tracked reg).removalKeys,
      ∃ d ∈ tracked \ devices.filter (fun d => isSwitchDevice device_types d = true),
        k = switchKey d) ∧
    (∀ k : Key,
      (∀ d ∈ tracked \ devices.filter (fun d => isSwitchDevice device_types d = true),
        k ≠ switchKey d) →
      (add_entities device_types devices tracked reg).registry k = reg k) := by
  simp only [add_entities]
  rw [if_neg (not_not_intro h1), if_pos h2]
  constructor
  · intro k hk
    obtain ⟨d, hd, hkd⟩ := removeLoop_calls_shape k _ reg hk
    exact ⟨d, (Finset.mem_sort _).mp hd, hkd⟩
  · intro k hk
    exact removeLoop_frame k _ reg fun d hd => hk d ((Finset.mem_sort _).mp hd)

/-- A device catalog in which every device types as a light. -/
def lightTypes : String → Option String := fun _ => some "light"

theorem pass_removals_frame_witness :
    (∀ k ∈ (add_entities lightTypes {"a"} {"a"} (fun _ => none)).removalKeys,
      ∃ d ∈ ({"a"} : Finset String) \ ({"a"} : Finset String).filter
          (fun d => isSwitchDevice lightTypes d = true),
        k = switchKey d) ∧
    (∀ k : Key,
      (∀ d ∈ ({"a"} : Finset String) \ ({"a"} : Finset String).filter
          (fun d => isSwitchDevice lightTypes d = true),
        k ≠ switchKey d) →
      (add_entities lightTypes {"a"} {"a"} (fun _ => none)).registry k =
        (fun _ => none : Reg) k) :=
  pass_removals_frame lightTypes {"a"} {"a"} (fun _ => none) (by decide) (by decide)

/-- C10: a device id processed by the removal branch whose registry lookup
finds no entity triggers no removal call and no failure, and the id is
dropped from the tracked set whether or not an entity was found. -/
theorem removal_handles_missing_entry (device_types : String → Option String)
    (devices tracked : Finset String) (reg : Reg) (d : String)
    (h1 : devices.filter (fun x => isSwitchDevice device_types x = true) \ tracked = ∅)
    (h2 : tracked \ devices.filter (fun x => isSwitchDevice device_types x = true) ≠ ∅)
    (hd : d ∈ tracked \ devices.filter (fun x => isSwitchDevice device_types x = true)) :
    (reg (switchKey d) = none →
      switchKey d ∉ (add_entities device_types devices tracked reg).removalKeys) ∧
    d ∉ (add_entities device_types devices tracked reg).lists_added := by
  simp only [add_entities]
  rw [if_neg (not_not_intro h1), if_pos h2]
  constructor
  · intro hnone
    exact removeLoop_none_no_call (switchKey d) _ reg hnone
  · show d ∉ tracked \ (tracked \ _)
    intro hmem
    exact (Finset.mem_sdiff.mp hmem).2 hd

theorem removal_handles_missing_entry_witness :
    switchKey "a" ∉
      (add_entities lightTypes {"a"} {"a"} (fun _ => none)).removalKeys ∧
    "a" ∉ (add_entities lightTypes {"a"} {"a"} (fun _ => none)).lists_added :=
  ⟨(removal_handles_missing_entry lightTypes {"a"} {"a"} (fun _ => none) "a"
      (by decide) (by decide) (by decide)).1 rfl,
   (removal_handles_missing_entry lightTypes {"a"} {"a"} (fun _ => none) "a"
      (by decide) (by decide) (by decide)).2⟩

/-- C6: in the turn-on trace both assignment events (coordinator data on flag
and entity is-on flag, set to true) occur strictly before the await of the
client turn-on call, and symmetrically for turn-off with false. -/
theorem assignments_before_await :
    Ev.set_data_on true ∈ async_turn_on_trace ∧
    Ev.set_attr_is_on true ∈ async_turn_on_trace ∧
    Ev.await_client_turn_on ∈ async_turn_on_trace ∧
    async_turn_on_trace.indexOf (Ev.set_data_on true) <
      async_turn_on_trace.indexOf Ev.await_client_turn_on ∧
    async_turn_on_trace.indexOf (Ev.set_attr_is_on true) <
      async_turn_on_trace.indexOf Ev.await_client_turn_on ∧
    Ev.set_data_on false ∈ async_turn_off_trace ∧
    Ev.set_attr_is_on false ∈ async_turn_off_trace ∧
    Ev.await_client_turn_off ∈ async_turn_off_trace ∧
    async_turn_off_trace.indexOf (Ev.set_data_on false) <
      async_turn_off_trace.indexOf Ev.await_client_turn_off ∧
    async_turn_off_trace.indexOf (Ev.set_attr_is_on false) <
      async_turn_off_trace.indexOf Ev.await_client_turn_off := by
  decide

end Aidot
